import Mathlib

/-!
Verification of the strongSwan OS IMV plugin
(`src/libimcv/plugins/imv_os/imv_os.c`).

Shallow embedding: the per-session posture state, the attribute
classification loop of `receive_message`, the batch-boundary state
machine `TNC_IMV_BatchEnding`, and the missing-attribute request
builder `build_attr_request` are translated into executable Lean
functions.  Collaborator calls (database, policy script, message
sends, recommendation sink) are recorded in an output trace.

The state accessors (`set_received`, `set_os_settings`,
`set_angel_count`, ...) live in `imv_os_state.c`, which is not part of
the sources at hand; they are modelled from the specification's data
model where marked.
-/

namespace ImvOs

/-- A byte/character payload (`chunk_t` in the C source); `chunk_empty`
is `[]` and `chunk.len` is the list length. -/
abbrev Chunk : Type := List Char

/-- Handshake phase of a session (`imv_os_handshake_state_t`):
`IMV_OS_STATE_INIT`, `IMV_OS_STATE_ATTR_REQ`, `IMV_OS_STATE_POLICY_START`. -/
inductive HandshakeState where
  | init
  | attrReq
  | policyStart
deriving DecidableEq, Repr

/-- Numeric value of a handshake phase, mirroring the C enum order used
by the comparison `handshake_state < IMV_OS_STATE_POLICY_START`. -/
def hsVal : HandshakeState → Nat
  | .init => 0
  | .attrReq => 1
  | .policyStart => 2

/-- `TNC_IMV_Action_Recommendation` values used by the plugin. -/
inductive ActionRec where
  | allow
  | noRecommendation
  | isolate
deriving DecidableEq, Repr

/-- `TNC_IMV_Evaluation_Result` values used by the plugin. -/
inductive EvalResult where
  | compliant
  | noncompliantMinor
  | error
deriving DecidableEq, Repr

/-- Received-attribute flags `imv_os_attr_t` (bitmask values from the C enum). -/
def IMV_OS_ATTR_PRODUCT_INFORMATION : Nat := 1

def IMV_OS_ATTR_STRING_VERSION : Nat := 2

def IMV_OS_ATTR_NUMERIC_VERSION : Nat := 4

def IMV_OS_ATTR_OPERATIONAL_STATUS : Nat := 8

def IMV_OS_ATTR_FORWARDING_ENABLED : Nat := 16

def IMV_OS_ATTR_FACTORY_DEFAULT_PWD_ENABLED : Nat := 32

def IMV_OS_ATTR_DEVICE_ID : Nat := 64

def IMV_OS_ATTR_ALL : Nat := 127

/-- OS settings flags.  Modelled from the spec: `imv_os_state.h` is not in
the sources; the spec describes `settings_flags` as a set of three boolean
findings, here distinct bits of a mask. -/
def OS_SETTINGS_FWD_ENABLED : Nat := 1

/-- OS settings flag for a factory default password (see `OS_SETTINGS_FWD_ENABLED`). -/
def OS_SETTINGS_DEFAULT_PWD_ENABLED : Nat := 2

/-- OS settings flag for non-market apps allowed (see `OS_SETTINGS_FWD_ENABLED`). -/
def OS_SETTINGS_NON_MARKET_APPS : Nat := 4

/-- The per-session posture state (`imv_os_state_t` of `imv_os_state.c`,
fields as described by the spec's Session Posture Record and as accessed
from `imv_os.c`). -/
structure OsState where
  handshake_state : HandshakeState
  received : Nat
  os_settings : Nat
  angel_count : Nat
  count : Nat
  count_update : Nat
  count_blacklist : Nat
  count_ok : Nat
  os_info : Option (Chunk × Chunk)
  device_id : Option Int
  recommendation : Option (ActionRec × EvalResult)
deriving DecidableEq, Repr

/-- Modelled from the spec: `imv_os_state_create` (in `imv_os_state.c`,
not in the sources) initialises all fields to zero/none, phase `Init`. -/
def imv_os_state_create : OsState :=
  { handshake_state := .init
    received := 0
    os_settings := 0
    angel_count := 0
    count := 0
    count_update := 0
    count_blacklist := 0
    count_ok := 0
    os_info := none
    device_id := none
    recommendation := none }

/-- Modelled from the spec: `set_received` (in `imv_os_state.c`, not in
the sources) ors the given flag into the monotonically growing mask. -/
def set_received (s : OsState) (flags : Nat) : OsState :=
  { s with received := s.received ||| flags }

/-- Modelled from the spec: `set_os_settings` (in `imv_os_state.c`, not
in the sources) ors the given flag into the settings mask. -/
def set_os_settings (s : OsState) (flags : Nat) : OsState :=
  { s with os_settings := s.os_settings ||| flags }

/-- Modelled from the spec: `set_angel_count` (in `imv_os_state.c`, not
in the sources) increments on a start marker and decrements on a stop
marker; the count never goes negative (decrement at zero is a no-op,
which truncated `Nat` subtraction models exactly). -/
def set_angel_count (s : OsState) (start : Bool) : OsState :=
  { s with angel_count := if start then s.angel_count + 1 else s.angel_count - 1 }

/-- Modelled from the spec: `check_packages` of `imv_os_database.c` (not
in the sources) merges the aggregate package classification counts into
the session counters. -/
def merge_counts (s : OsState) (c cu cb cok : Nat) : OsState :=
  { s with
    count := s.count + c
    count_update := s.count_update + cu
    count_blacklist := s.count_blacklist + cb
    count_ok := s.count_ok + cok }

/-- `imv_state_t.set_recommendation`: store the recommendation pair. -/
def set_recommendation (s : OsState) (a : ActionRec) (e : EvalResult) : OsState :=
  { s with recommendation := some (a, e) }

/-- Modelled from the spec: `set_info` (in `imv_os_state.c`, not in the
sources) stores the OS identity (name, version). -/
def set_info (s : OsState) (n v : Chunk) : OsState :=
  { s with os_info := some (n, v) }

/-- Modelled from the spec: `set_device_id` (in `imv_os_state.c`, not in
the sources) stores the identifier returned by the database. -/
def set_device_id (s : OsState) (d : Int) : OsState :=
  { s with device_id := some d }

/-- Modelled from the spec: `set_handshake_state` (in `imv_os_state.c`,
not in the sources) stores the new phase. -/
def set_handshake_state (s : OsState) (h : HandshakeState) : OsState :=
  { s with handshake_state := h }

/-- IPv4 forwarding status (`os_fwd_status_t`). -/
inductive OsFwdStatus where
  | disabled
  | enabled
  | unknown
deriving DecidableEq, Repr

/-- Result of the database's package compliance check for one
InstalledPackages attribute: `FAILED`, or the aggregate counts it
merges (total, not-updated, blacklisted, ok). -/
inductive PkgCheck where
  | failed
  | counts (c cu cb cok : Nat)
deriving DecidableEq, Repr

/-- A decoded PA-TNC attribute as dispatched by the classifier switch in
`receive_message`.  Payloads carry exactly the data the switch reads;
the InstalledPackages payload carries the (external) database's check
result for its package enumeration.  Unknown (vendor, type) pairs are
`unknownAttr`. -/
inductive Attr where
  | productInfo (os_name : Chunk)
  | stringVersion (os_version : Chunk)
  | numericVersion
  | operationalStatus
  | forwardingEnabled (fwd_status : OsFwdStatus)
  | defaultPwdEnabled (status : Bool)
  | installedPackages (res : PkgCheck)
  | settingsAttr (entries : List (String × Chunk))
  | deviceId (value : Chunk)
  | startAngel
  | stopAngel
  | unknownAttr
deriving DecidableEq, Repr

/-- Vendor id of a requested attribute (`pen_t`). -/
inductive Pen where
  | ietf
  | ita
deriving DecidableEq, Repr

/-- Attribute types that appear in outgoing attribute requests. -/
inductive AttrType where
  | productInformation
  | stringVersion
  | numericVersion
  | operationalStatus
  | forwardingEnabled
  | factoryDefaultPwdEnabled
  | deviceIdType
  | installedPackages
deriving DecidableEq, Repr

/-- One observable collaborator call made by the plugin, in program order. -/
inductive Call where
  | checkPackages (res : PkgCheck)
  | addDevice (value : Chunk)
  | addProduct (os_name os_version : Chunk)
  | policyScript (start : Bool)
  | setDeviceInfo (c cu cb : Nat) (settings : Nat)
  | sendAttrRequest (entries : List (Pen × AttrType)) (excl : Bool)
  | sendReply (excl : Bool)
  | sendAssessment
  | provideRecommendation (r : Option (ActionRec × EvalResult))
deriving DecidableEq, Repr

/-- Configuration of the external collaborators: whether the OS package
database (`os_db`) and the IMV database (`imv_db`) are present, and the
identifier `add_device` returns for a raw device id. -/
structure Env where
  os_db : Bool
  imv_db : Bool
  add_device : Chunk → Int

/-- `TNC_Result` values the modelled entry points return. -/
inductive TNCResult where
  | success
  | other
deriving DecidableEq, Repr

/-- An inbound PA-TNC message as seen by `receive_message`:
`receive_ok` is whether `in_msg->receive` returned `TNC_RESULT_SUCCESS`,
`fatal_error` is the flag it sets for local/remote fatal PA-TNC errors,
and `attrs` are the decoded attributes its enumerator yields. -/
structure Msg where
  attrs : List Attr
  receive_ok : Bool
  fatal_error : Bool
deriving DecidableEq, Repr

/-- Accumulator threaded through the attribute loop of `receive_message`:
the session state plus the local variables `os_name`, `os_version`,
`assessment`, and the trace of collaborator calls so far. -/
structure RmAcc where
  s : OsState
  os_name : Chunk
  os_version : Chunk
  assessment : Bool
  calls : List Call
deriving DecidableEq, Repr

/-- The body of the settings-bag loop (lines 323-333 of `imv_os.c`):
the recognized key `"install_non_market_apps"` with value `"1"` adds the
non-market-apps settings flag; other entries are only logged. -/
def settings_step (s : OsState) (e : String × Chunk) : OsState :=
  if e.1 = "install_non_market_apps" ∧ e.2 = ['1'] then
    set_os_settings s OS_SETTINGS_NON_MARKET_APPS
  else s

/-- One iteration of the attribute switch in `receive_message`
(lines 169-367 of `imv_os.c`). -/
def classify (env : Env) (acc : RmAcc) (attr : Attr) : RmAcc :=
  match attr with
  | .productInfo n =>
      { acc with s := set_received acc.s IMV_OS_ATTR_PRODUCT_INFORMATION, os_name := n }
  | .stringVersion v =>
      { acc with s := set_received acc.s IMV_OS_ATTR_STRING_VERSION, os_version := v }
  | .numericVersion =>
      { acc with s := set_received acc.s IMV_OS_ATTR_NUMERIC_VERSION }
  | .operationalStatus =>
      { acc with s := set_received acc.s IMV_OS_ATTR_OPERATIONAL_STATUS }
  | .forwardingEnabled fwd_status =>
      let s1 := set_received acc.s IMV_OS_ATTR_FORWARDING_ENABLED
      { acc with s :=
          if fwd_status = OsFwdStatus.enabled then
            set_os_settings s1 OS_SETTINGS_FWD_ENABLED
          else s1 }
  | .defaultPwdEnabled status =>
      let s1 := set_received acc.s IMV_OS_ATTR_FACTORY_DEFAULT_PWD_ENABLED
      { acc with s :=
          if status then set_os_settings s1 OS_SETTINGS_DEFAULT_PWD_ENABLED else s1 }
  | .installedPackages res =>
      if env.os_db = false then acc
      else
        let acc1 := { acc with calls := acc.calls ++ [Call.checkPackages res] }
        match res with
        | .failed =>
            { acc1 with
              s := set_recommendation acc1.s ActionRec.noRecommendation EvalResult.error
              assessment := true }
        | .counts c cu cb cok => { acc1 with s := merge_counts acc1.s c cu cb cok }
  | .settingsAttr entries =>
      { acc with s := entries.foldl settings_step acc.s }
  | .deviceId value =>
      let s1 := set_received acc.s IMV_OS_ATTR_DEVICE_ID
      if env.imv_db then
        { acc with
          s := set_device_id s1 (env.add_device value)
          calls := acc.calls ++ [Call.addDevice value] }
      else { acc with s := s1 }
  | .startAngel => { acc with s := set_angel_count acc.s true }
  | .stopAngel => { acc with s := set_angel_count acc.s false }
  | .unknownAttr => acc

/-- The compliance verdict computed at lines 421-432 of `imv_os.c` from
the package counters and the settings mask. -/
def assessRec (count_update count_blacklist os_settings : Nat) :
    ActionRec × EvalResult :=
  if count_update ≠ 0 ∨ count_blacklist ≠ 0 ∨ os_settings ≠ 0 then
    (ActionRec.isolate, EvalResult.noncompliantMinor)
  else
    (ActionRec.allow, EvalResult.compliant)

/-- Result of one `receive_message` invocation: the new session state,
the collaborator-call trace, the final value of the local `assessment`
flag, and the returned `TNC_Result`. -/
structure RmOut where
  s : OsState
  calls : List Call
  assessment : Bool
  result : TNCResult
deriving DecidableEq, Repr

/-- The attribute-analysis loop of `receive_message` (lines 168-368):
fold the classifier over the message's attributes, starting from the
session state with empty local `os_name`/`os_version`, a clear
`assessment` flag and no calls. -/
def scanState (env : Env) (state : OsState) (attrs : List Attr) : RmAcc :=
  attrs.foldl (classify env)
    { s := state, os_name := [], os_version := [], assessment := false, calls := [] }

/-- The joint-identity block of `receive_message` (lines 374-389): only
when both buffered payloads are non-empty, store the OS identity and,
if the IMV database is present, register the product. -/
def rmIdentity (env : Env) (acc : RmAcc) : RmAcc :=
  if acc.os_name ≠ [] ∧ acc.os_version ≠ [] then
    { acc with
      s := set_info acc.s acc.os_name acc.os_version
      calls := acc.calls ++
        (if env.imv_db then [Call.addProduct acc.os_name acc.os_version] else []) }
  else acc

/-- The fatal-error block of `receive_message` (lines 391-397): a fatal
PA-TNC error forces the error verdict and an assessment. -/
def rmFatal (fatal_error : Bool) (acc : RmAcc) : RmAcc :=
  if fatal_error then
    { acc with
      s := set_recommendation acc.s ActionRec.noRecommendation EvalResult.error
      assessment := true }
  else acc

/-- The automatic-assessment block of `receive_message` (lines 399-434):
when no assessment was forced, the phase is `POLICY_START` and the angel
count is zero, store the device info (if the OS database is present) and
set the counter/settings based recommendation. -/
def rmGate (env : Env) (acc : RmAcc) : RmAcc :=
  if acc.assessment = false ∧ acc.s.handshake_state = HandshakeState.policyStart ∧
      acc.s.angel_count = 0 then
    let acc1 := { acc with calls := acc.calls ++
      (if env.os_db then
        [Call.setDeviceInfo acc.s.count acc.s.count_update
          acc.s.count_blacklist acc.s.os_settings]
      else []) }
    let r := assessRec acc1.s.count_update acc1.s.count_blacklist acc1.s.os_settings
    { acc1 with s := set_recommendation acc1.s r.1 r.2, assessment := true }
  else acc

/-- The final block of `receive_message` (lines 436-451): either send
the assessment and ask the agent to deliver the recommendation, or send
the (exclusive) reply message. -/
def rmEmit (acc : RmAcc) : RmOut :=
  if acc.assessment then
    { s := acc.s
      calls := acc.calls ++
        [Call.sendAssessment, Call.provideRecommendation acc.s.recommendation]
      assessment := acc.assessment
      result := TNCResult.success }
  else
    { s := acc.s
      calls := acc.calls ++ [Call.sendReply true]
      assessment := acc.assessment
      result := TNCResult.success }

/-- `receive_message` of `imv_os.c` (lines 143-452): early return when
`in_msg->receive` fails; classify every attribute; accept the OS
identity only when both `os_name` and `os_version` are non-empty;
force an error verdict on a fatal PA-TNC error; run the automatic
assessment when `handshake_state == POLICY_START` and `angel_count == 0`
and no assessment was forced; emit either the assessment or an
exclusive reply. -/
def receive_message (env : Env) (state : OsState) (in_msg : Msg) : RmOut :=
  if in_msg.receive_ok = false then
    { s := state, calls := [], assessment := false, result := TNCResult.other }
  else
    rmEmit (rmGate env (rmFatal in_msg.fatal_error
      (rmIdentity env (scanState env state in_msg.attrs))))

/-- `build_attr_request` of `imv_os.c` (lines 542-579): the ordered list
of (vendor, type) entries added to the IETF Attribute Request attribute
for the given received-attribute mask. -/
def build_attr_request (received : Nat) : List (Pen × AttrType) :=
  (if received &&& IMV_OS_ATTR_PRODUCT_INFORMATION = 0 ∨
      received &&& IMV_OS_ATTR_STRING_VERSION = 0 then
    [(Pen.ietf, AttrType.productInformation), (Pen.ietf, AttrType.stringVersion)]
  else []) ++
  (if received &&& IMV_OS_ATTR_NUMERIC_VERSION = 0 then
    [(Pen.ietf, AttrType.numericVersion)] else []) ++
  (if received &&& IMV_OS_ATTR_OPERATIONAL_STATUS = 0 then
    [(Pen.ietf, AttrType.operationalStatus)] else []) ++
  (if received &&& IMV_OS_ATTR_FORWARDING_ENABLED = 0 then
    [(Pen.ietf, AttrType.forwardingEnabled)] else []) ++
  (if received &&& IMV_OS_ATTR_FACTORY_DEFAULT_PWD_ENABLED = 0 then
    [(Pen.ietf, AttrType.factoryDefaultPwdEnabled)] else []) ++
  (if received &&& IMV_OS_ATTR_DEVICE_ID = 0 then
    [(Pen.ita, AttrType.deviceIdType)] else [])

/-- Result of one `TNC_IMV_BatchEnding` invocation. -/
structure BeOut where
  s : OsState
  calls : List Call
  result : TNCResult
deriving DecidableEq, Repr

/-- `TNC_IMV_BatchEnding` of `imv_os.c` (lines 584-684), for an existing
session: in phase `INIT` with attributes missing, send the attribute
request (non-exclusive); below `POLICY_START`, when ProductInfo and
StringVersion were received and (DeviceId was received or the phase is
`ATTR_REQ`), trigger the policy script (if the IMV database is present),
advance to `POLICY_START` and request the installed packages with the
exclusive flag; otherwise in phase `ATTR_REQ` force the error verdict
and emit the assessment; otherwise advance to `ATTR_REQ`.
Message sends are modelled as succeeding. -/
def TNC_IMV_BatchEnding (env : Env) (state : OsState) : BeOut :=
  let handshake_state := state.handshake_state
  let received := state.received
  let calls0 : List Call :=
    if handshake_state = HandshakeState.init ∧ received ≠ IMV_OS_ATTR_ALL then
      [Call.sendAttrRequest (build_attr_request received) false]
    else []
  if hsVal handshake_state < hsVal HandshakeState.policyStart then
    if (received &&& IMV_OS_ATTR_PRODUCT_INFORMATION ≠ 0 ∧
        received &&& IMV_OS_ATTR_STRING_VERSION ≠ 0) ∧
       (received &&& IMV_OS_ATTR_DEVICE_ID ≠ 0 ∨
        handshake_state = HandshakeState.attrReq) then
      let calls1 := if env.imv_db then calls0 ++ [Call.policyScript true] else calls0
      let s1 := set_handshake_state state HandshakeState.policyStart
      { s := s1
        calls := calls1 ++
          [Call.sendAttrRequest [(Pen.ietf, AttrType.installedPackages)] true]
        result := TNCResult.success }
    else if handshake_state = HandshakeState.attrReq then
      let s1 := set_recommendation state ActionRec.noRecommendation EvalResult.error
      { s := s1
        calls := calls0 ++ [Call.sendAssessment, Call.provideRecommendation s1.recommendation]
        result := TNCResult.success }
    else
      { s := set_handshake_state state HandshakeState.attrReq
        calls := calls0
        result := TNCResult.success }
  else
    { s := state, calls := calls0, result := TNCResult.success }

/-- An event on one session: an inbound message delivery or a batch
boundary. -/
inductive Event where
  | message (m : Msg)
  | batchEnd
deriving Repr

/-- One event step: the new state and the calls it emitted. -/
def step (env : Env) (s : OsState) : Event → OsState × List Call
  | .message m =>
      let o := receive_message env s m
      (o.s, o.calls)
  | .batchEnd =>
      let o := TNC_IMV_BatchEnding env s
      (o.s, o.calls)

/-- Run a sequence of events from a state, accumulating all calls. -/
def runEvents (env : Env) (s : OsState) : List Event → OsState × List Call
  | [] => (s, [])
  | e :: es =>
      let p := step env s e
      let q := runEvents env p.1 es
      (q.1, p.2 ++ q.2)

/-- Number of verdict submissions (`provide_recommendation` calls) in a
call trace. -/
def provideCount (cs : List Call) : Nat :=
  cs.countP fun c =>
    match c with
    | .provideRecommendation _ => true
    | _ => false

/-- Effect of one attribute on the local `os_name` buffer. -/
def nameStep (c : Chunk) (a : Attr) : Chunk :=
  match a with
  | .productInfo n => n
  | _ => c

/-- Effect of one attribute on the local `os_version` buffer. -/
def versionStep (c : Chunk) (a : Attr) : Chunk :=
  match a with
  | .stringVersion v => v
  | _ => c

/-- Effect of one attribute on the angel count. -/
def angelStep (n : Nat) (a : Attr) : Nat :=
  match a with
  | .startAngel => n + 1
  | .stopAngel => n - 1
  | _ => n

/-- Whether an attribute is an InstalledPackages attribute whose
database check reports the hard failure `FAILED`. -/
def isPkgFailAttr (a : Attr) : Bool :=
  match a with
  | .installedPackages .failed => true
  | _ => false

/-- Whether classifying the attribute list hits a package-check hard
failure (possible only with the OS database present). -/
def pkgFail (env : Env) (attrs : List Attr) : Bool :=
  env.os_db && attrs.any isPkgFailAttr

/-- Spec-side definition (for comparison with `build_attr_request`):
the fixed request table of §4.2/§4.4 of the spec, in table order. -/
def requestTable : List (Pen × AttrType) :=
  [(Pen.ietf, AttrType.productInformation),
   (Pen.ietf, AttrType.stringVersion),
   (Pen.ietf, AttrType.numericVersion),
   (Pen.ietf, AttrType.operationalStatus),
   (Pen.ietf, AttrType.forwardingEnabled),
   (Pen.ietf, AttrType.factoryDefaultPwdEnabled),
   (Pen.ita, AttrType.deviceIdType)]

/-- Spec-side definition (for comparison with `build_attr_request`):
which table entries §4.4 of the spec says are requested for a given
received mask — ProductInfo and StringVersion as a pair whenever either
is missing, every other kind individually when absent. -/
def specRequested (received : Nat) (e : Pen × AttrType) : Bool :=
  match e.2 with
  | .productInformation =>
      decide (received &&& IMV_OS_ATTR_PRODUCT_INFORMATION = 0) ||
      decide (received &&& IMV_OS_ATTR_STRING_VERSION = 0)
  | .stringVersion =>
      decide (received &&& IMV_OS_ATTR_PRODUCT_INFORMATION = 0) ||
      decide (received &&& IMV_OS_ATTR_STRING_VERSION = 0)
  | .numericVersion => decide (received &&& IMV_OS_ATTR_NUMERIC_VERSION = 0)
  | .operationalStatus => decide (received &&& IMV_OS_ATTR_OPERATIONAL_STATUS = 0)
  | .forwardingEnabled => decide (received &&& IMV_OS_ATTR_FORWARDING_ENABLED = 0)
  | .factoryDefaultPwdEnabled =>
      decide (received &&& IMV_OS_ATTR_FACTORY_DEFAULT_PWD_ENABLED = 0)
  | .deviceIdType => decide (received &&& IMV_OS_ATTR_DEVICE_ID = 0)
  | .installedPackages => false

/-- A concrete environment with neither database configured. -/
def envNone : Env := ⟨false, false, fun _ => 0⟩

/-- A concrete environment with both databases configured. -/
def envDb : Env := ⟨true, true, fun _ => 7⟩

/-! ### Lemmas about the classifier step -/

theorem settings_foldl_shape (entries : List (String × Chunk)) (s : OsState) :
    ∃ m, entries.foldl settings_step s = { s with os_settings := m } := by
  induction entries generalizing s with
  | nil => exact ⟨s.os_settings, rfl⟩
  | cons e es ih =>
      simp only [List.foldl_cons, settings_step]
      split
      · obtain ⟨m, hm⟩ := ih (set_os_settings s OS_SETTINGS_NON_MARKET_APPS)
        exact ⟨m, hm⟩
      · exact ih s

theorem classify_handshake (env : Env) (acc : RmAcc) (a : Attr) :
    (classify env acc a).s.handshake_state = acc.s.handshake_state := by
  cases a <;>
    simp only [classify, set_received, set_os_settings, set_device_id,
      set_angel_count, set_recommendation, merge_counts]
  case forwardingEnabled st => split <;> rfl
  case defaultPwdEnabled b => split <;> rfl
  case installedPackages res =>
    split
    · rfl
    · cases res <;> rfl
  case settingsAttr entries =>
    obtain ⟨m, hm⟩ := settings_foldl_shape entries acc.s
    simp [hm]
  case deviceId v => split <;> rfl

theorem classify_os_info (env : Env) (acc : RmAcc) (a : Attr) :
    (classify env acc a).s.os_info = acc.s.os_info := by
  cases a <;>
    simp only [classify, set_received, set_os_settings, set_device_id,
      set_angel_count, set_recommendation, merge_counts]
  case forwardingEnabled st => split <;> rfl
  case defaultPwdEnabled b => split <;> rfl
  case installedPackages res =>
    split
    · rfl
    · cases res <;> rfl
  case settingsAttr entries =>
    obtain ⟨m, hm⟩ := settings_foldl_shape entries acc.s
    simp [hm]
  case deviceId v => split <;> rfl

theorem classify_angel (env : Env) (acc : RmAcc) (a : Attr) :
    (classify env acc a).s.angel_count = angelStep acc.s.angel_count a := by
  cases a <;>
    simp only [classify, angelStep, set_received, set_os_settings, set_device_id,
      set_angel_count, set_recommendation, merge_counts]
  case forwardingEnabled st => split <;> rfl
  case defaultPwdEnabled b => split <;> rfl
  case installedPackages res =>
    split
    · rfl
    · cases res <;> rfl
  case settingsAttr entries =>
    obtain ⟨m, hm⟩ := settings_foldl_shape entries acc.s
    simp [hm]
  case deviceId v => split <;> rfl
  case startAngel => simp
  case stopAngel => simp

theorem classify_assessment (env : Env) (acc : RmAcc) (a : Attr) :
    (classify env acc a).assessment =
      (acc.assessment || (env.os_db && isPkgFailAttr a)) := by
  cases a <;>
    simp only [classify, isPkgFailAttr, Bool.and_false, Bool.or_false]
  case installedPackages res =>
    split
    · next h => simp [h]
    · next h =>
        cases res
        · simp [eq_true_of_ne_false h]
        · simp
  case deviceId v => split <;> rfl

theorem classify_os_name (env : Env) (acc : RmAcc) (a : Attr) :
    (classify env acc a).os_name = nameStep acc.os_name a := by
  cases a <;> simp only [classify, nameStep]
  case installedPackages res =>
    split
    · rfl
    · cases res <;> rfl
  case deviceId v => split <;> rfl

theorem classify_os_version (env : Env) (acc : RmAcc) (a : Attr) :
    (classify env acc a).os_version = versionStep acc.os_version a := by
  cases a <;> simp only [classify, versionStep]
  case installedPackages res =>
    split
    · rfl
    · cases res <;> rfl
  case deviceId v => split <;> rfl

theorem classify_rec_isSome (env : Env) (acc : RmAcc) (a : Attr)
    (h : acc.s.recommendation.isSome = true) :
    (classify env acc a).s.recommendation.isSome = true := by
  cases a <;>
    simp only [classify, set_received, set_os_settings, set_device_id,
      set_angel_count, set_recommendation, merge_counts] <;>
    try exact h
  case forwardingEnabled st => split <;> exact h
  case defaultPwdEnabled b => split <;> exact h
  case installedPackages res =>
    split
    · exact h
    · cases res
      · simp
      · exact h
  case settingsAttr entries =>
    obtain ⟨m, hm⟩ := settings_foldl_shape entries acc.s
    simp [hm]
    exact h
  case deviceId v => split <;> exact h

theorem classify_rec_err (env : Env) (acc : RmAcc) (a : Attr)
    (h : acc.s.recommendation = some (ActionRec.noRecommendation, EvalResult.error)) :
    (classify env acc a).s.recommendation =
      some (ActionRec.noRecommendation, EvalResult.error) := by
  cases a <;>
    simp only [classify, set_received, set_os_settings, set_device_id,
      set_angel_count, set_recommendation, merge_counts] <;>
    try exact h
  case forwardingEnabled st => split <;> exact h
  case defaultPwdEnabled b => split <;> exact h
  case installedPackages res =>
    split
    · exact h
    · cases res
      · rfl
      · exact h
  case settingsAttr entries =>
    obtain ⟨m, hm⟩ := settings_foldl_shape entries acc.s
    simp [hm]
    exact h
  case deviceId v => split <;> exact h

theorem classify_calls (env : Env) (acc : RmAcc) (a : Attr) (c : Call)
    (hc : c ∈ (classify env acc a).calls) :
    c ∈ acc.calls ∨ (∃ r, c = Call.checkPackages r) ∨ ∃ v, c = Call.addDevice v := by
  cases a <;> simp only [classify] at hc
  case productInfo n => exact Or.inl hc
  case stringVersion v => exact Or.inl hc
  case numericVersion => exact Or.inl hc
  case operationalStatus => exact Or.inl hc
  case forwardingEnabled st =>
    exact Or.inl hc
  case defaultPwdEnabled b =>
    exact Or.inl hc
  case installedPackages res =>
    split at hc
    · exact Or.inl hc
    · cases res <;> simp at hc <;> rcases hc with hc | hc
      · exact Or.inl hc
      · exact Or.inr (Or.inl ⟨_, hc⟩)
      · exact Or.inl hc
      · exact Or.inr (Or.inl ⟨_, hc⟩)
  case settingsAttr entries => exact Or.inl hc
  case deviceId v =>
    split at hc
    · simp at hc
      rcases hc with hc | hc
      · exact Or.inl hc
      · exact Or.inr (Or.inr ⟨_, hc⟩)
    · exact Or.inl hc
  case startAngel => exact Or.inl hc
  case stopAngel => exact Or.inl hc
  case unknownAttr => exact Or.inl hc

/-! ### Lemmas about the classification fold -/

theorem foldl_classify_handshake (env : Env) (l : List Attr) (acc : RmAcc) :
    (l.foldl (classify env) acc).s.handshake_state = acc.s.handshake_state := by
  induction l generalizing acc with
  | nil => rfl
  | cons a l ih => rw [List.foldl_cons, ih, classify_handshake]

theorem foldl_classify_os_info (env : Env) (l : List Attr) (acc : RmAcc) :
    (l.foldl (classify env) acc).s.os_info = acc.s.os_info := by
  induction l generalizing acc with
  | nil => rfl
  | cons a l ih => rw [List.foldl_cons, ih, classify_os_info]

theorem foldl_classify_angel (env : Env) (l : List Attr) (acc : RmAcc) :
    (l.foldl (classify env) acc).s.angel_count =
      l.foldl angelStep acc.s.angel_count := by
  induction l generalizing acc with
  | nil => rfl
  | cons a l ih => rw [List.foldl_cons, List.foldl_cons, ih, classify_angel]

theorem foldl_classify_assessment (env : Env) (l : List Attr) (acc : RmAcc) :
    (l.foldl (classify env) acc).assessment =
      (acc.assessment || (env.os_db && l.any isPkgFailAttr)) := by
  induction l generalizing acc with
  | nil => simp
  | cons a l ih =>
      rw [List.foldl_cons, ih, classify_assessment, List.any_cons]
      cases env.os_db <;> simp [Bool.or_assoc]

theorem foldl_classify_os_name (env : Env) (l : List Attr) (acc : RmAcc) :
    (l.foldl (classify env) acc).os_name = l.foldl nameStep acc.os_name := by
  induction l generalizing acc with
  | nil => rfl
  | cons a l ih => rw [List.foldl_cons, List.foldl_cons, ih, classify_os_name]

theorem foldl_classify_os_version (env : Env) (l : List Attr) (acc : RmAcc) :
    (l.foldl (classify env) acc).os_version = l.foldl versionStep acc.os_version := by
  induction l generalizing acc with
  | nil => rfl
  | cons a l ih => rw [List.foldl_cons, List.foldl_cons, ih, classify_os_version]

theorem foldl_classify_rec_isSome (env : Env) (l : List Attr) (acc : RmAcc)
    (h : acc.s.recommendation.isSome = true) :
    (l.foldl (classify env) acc).s.recommendation.isSome = true := by
  induction l generalizing acc with
  | nil => exact h
  | cons a l ih => exact ih _ (classify_rec_isSome env acc a h)

theorem foldl_classify_rec_err (env : Env) (l : List Attr) (acc : RmAcc)
    (h : acc.s.recommendation = some (ActionRec.noRecommendation, EvalResult.error)) :
    (l.foldl (classify env) acc).s.recommendation =
      some (ActionRec.noRecommendation, EvalResult.error) := by
  induction l generalizing acc with
  | nil => exact h
  | cons a l ih => exact ih _ (classify_rec_err env acc a h)

theorem foldl_classify_rec_err_of_fail (env : Env) (l : List Attr) (acc : RmAcc)
    (hdb : env.os_db = true)
    (hmem : Attr.installedPackages PkgCheck.failed ∈ l) :
    (l.foldl (classify env) acc).s.recommendation =
      some (ActionRec.noRecommendation, EvalResult.error) := by
  induction l generalizing acc with
  | nil => cases hmem
  | cons a l ih =>
      rw [List.foldl_cons]
      rcases List.mem_cons.mp hmem with ha | ha
      · subst ha
        by_cases hrest : Attr.installedPackages PkgCheck.failed ∈ l
        · exact ih _ hrest
        · apply foldl_classify_rec_err
          simp [classify, hdb, set_recommendation]
      · exact ih _ ha

theorem foldl_classify_calls (env : Env) (l : List Attr) (acc : RmAcc) (c : Call)
    (hc : c ∈ (l.foldl (classify env) acc).calls) :
    c ∈ acc.calls ∨ (∃ r, c = Call.checkPackages r) ∨ ∃ v, c = Call.addDevice v := by
  induction l generalizing acc with
  | nil => exact Or.inl hc
  | cons a l ih =>
      rw [List.foldl_cons] at hc
      rcases ih _ hc with h | h
      · exact classify_calls env acc a c h
      · exact Or.inr h

/-! ### Lemmas about the stages of `receive_message` -/

theorem rmIdentity_assessment (env : Env) (acc : RmAcc) :
    (rmIdentity env acc).assessment = acc.assessment := by
  unfold rmIdentity; split <;> rfl

theorem rmIdentity_handshake (env : Env) (acc : RmAcc) :
    (rmIdentity env acc).s.handshake_state = acc.s.handshake_state := by
  unfold rmIdentity; split <;> simp [set_info]

theorem rmIdentity_angel (env : Env) (acc : RmAcc) :
    (rmIdentity env acc).s.angel_count = acc.s.angel_count := by
  unfold rmIdentity; split <;> simp [set_info]

theorem rmIdentity_rec (env : Env) (acc : RmAcc) :
    (rmIdentity env acc).s.recommendation = acc.s.recommendation := by
  unfold rmIdentity; split <;> simp [set_info]

theorem rmIdentity_os_info (env : Env) (acc : RmAcc) :
    (rmIdentity env acc).s.os_info =
      if acc.os_name ≠ [] ∧ acc.os_version ≠ [] then some (acc.os_name, acc.os_version)
      else acc.s.os_info := by
  unfold rmIdentity
  split <;> simp_all [set_info]

theorem rmIdentity_calls (env : Env) (acc : RmAcc) :
    ∃ δ, (rmIdentity env acc).calls = acc.calls ++ δ ∧
      ∀ c ∈ δ, ∃ n v, c = Call.addProduct n v := by
  unfold rmIdentity
  split
  · refine ⟨_, rfl, ?_⟩
    intro c hc
    split at hc <;> simp at hc
    exact ⟨_, _, hc⟩
  · exact ⟨[], by simp, by simp⟩

theorem rmIdentity_addProduct (env : Env) (acc : RmAcc)
    (h1 : acc.os_name ≠ []) (h2 : acc.os_version ≠ []) (hdb : env.imv_db = true) :
    Call.addProduct acc.os_name acc.os_version ∈ (rmIdentity env acc).calls := by
  unfold rmIdentity
  rw [if_pos ⟨h1, h2⟩, hdb]
  simp

theorem rmFatal_false (acc : RmAcc) : rmFatal false acc = acc := rfl

theorem rmFatal_assessment (f : Bool) (acc : RmAcc) :
    (rmFatal f acc).assessment = (acc.assessment || f) := by
  cases f <;> simp [rmFatal]

theorem rmFatal_handshake (f : Bool) (acc : RmAcc) :
    (rmFatal f acc).s.handshake_state = acc.s.handshake_state := by
  cases f <;> simp [rmFatal, set_recommendation]

theorem rmFatal_angel (f : Bool) (acc : RmAcc) :
    (rmFatal f acc).s.angel_count = acc.s.angel_count := by
  cases f <;> simp [rmFatal, set_recommendation]

theorem rmFatal_os_info (f : Bool) (acc : RmAcc) :
    (rmFatal f acc).s.os_info = acc.s.os_info := by
  cases f <;> simp [rmFatal, set_recommendation]

theorem rmFatal_calls (f : Bool) (acc : RmAcc) :
    (rmFatal f acc).calls = acc.calls := by
  cases f <;> simp [rmFatal]

theorem rmFatal_rec_true (acc : RmAcc) :
    (rmFatal true acc).s.recommendation =
      some (ActionRec.noRecommendation, EvalResult.error) := by
  simp [rmFatal, set_recommendation]

theorem rmGate_skip (env : Env) (acc : RmAcc) (h : acc.assessment = true) :
    rmGate env acc = acc := by
  unfold rmGate
  rw [if_neg]
  simp [h]

theorem rmGate_assessment (env : Env) (acc : RmAcc) :
    (rmGate env acc).assessment =
      (acc.assessment ||
        (decide (acc.s.handshake_state = HandshakeState.policyStart) &&
         decide (acc.s.angel_count = 0))) := by
  unfold rmGate
  split
  · next h => simp [h.2.1, h.2.2]
  · next h =>
      cases ha : acc.assessment
      · simp only [Bool.false_or]
        rw [ha] at h
        by_cases hp : acc.s.handshake_state = HandshakeState.policyStart
        · by_cases hz : acc.s.angel_count = 0
          · exact absurd ⟨rfl, hp, hz⟩ h
          · simp [hz]
        · simp [hp]
      · simp

theorem rmGate_os_info (env : Env) (acc : RmAcc) :
    (rmGate env acc).s.os_info = acc.s.os_info := by
  unfold rmGate
  split <;> simp [set_recommendation]

theorem rmGate_handshake (env : Env) (acc : RmAcc) :
    (rmGate env acc).s.handshake_state = acc.s.handshake_state := by
  unfold rmGate
  split <;> simp [set_recommendation]

theorem rmGate_calls (env : Env) (acc : RmAcc) :
    ∃ δ, (rmGate env acc).calls = acc.calls ++ δ ∧
      ∀ c ∈ δ, ∃ n1 n2 n3 n4, c = Call.setDeviceInfo n1 n2 n3 n4 := by
  unfold rmGate
  split
  · refine ⟨_, rfl, ?_⟩
    intro c hc
    split at hc <;> simp at hc
    exact ⟨_, _, _, _, hc⟩
  · exact ⟨[], by simp, by simp⟩

theorem rmGate_rec_of_assessment (env : Env) (acc : RmAcc) (h : acc.assessment = true) :
    (rmGate env acc).s.recommendation = acc.s.recommendation := by
  rw [rmGate_skip env acc h]

theorem rmEmit_s (acc : RmAcc) : (rmEmit acc).s = acc.s := by
  unfold rmEmit; split <;> rfl

theorem rmEmit_assessment (acc : RmAcc) : (rmEmit acc).assessment = acc.assessment := by
  unfold rmEmit; split <;> rfl

theorem rmEmit_calls_true (acc : RmAcc) (h : acc.assessment = true) :
    (rmEmit acc).calls = acc.calls ++
      [Call.sendAssessment, Call.provideRecommendation acc.s.recommendation] := by
  unfold rmEmit
  rw [if_pos h]

theorem rmEmit_calls_false (acc : RmAcc) (h : acc.assessment = false) :
    (rmEmit acc).calls = acc.calls ++ [Call.sendReply true] := by
  unfold rmEmit
  rw [if_neg (by simp [h])]

theorem receive_message_ok (env : Env) (state : OsState) (in_msg : Msg)
    (h : in_msg.receive_ok = true) :
    receive_message env state in_msg =
      rmEmit (rmGate env (rmFatal in_msg.fatal_error
        (rmIdentity env (scanState env state in_msg.attrs)))) := by
  unfold receive_message
  rw [if_neg (by simp [h])]

theorem rmGate_rec_isSome (env : Env) (acc : RmAcc)
    (h : acc.s.recommendation.isSome = true) :
    (rmGate env acc).s.recommendation.isSome = true := by
  unfold rmGate
  split
  · simp [set_recommendation]
  · exact h

theorem rmFatal_rec_isSome (f : Bool) (acc : RmAcc)
    (h : acc.s.recommendation.isSome = true) :
    (rmFatal f acc).s.recommendation.isSome = true := by
  cases f
  · exact h
  · simp [rmFatal, set_recommendation]

theorem rmEmit_calls_mono (acc : RmAcc) (c : Call) (h : c ∈ acc.calls) :
    c ∈ (rmEmit acc).calls := by
  unfold rmEmit
  split <;> exact List.mem_append_left _ h

theorem rmGate_calls_mono (env : Env) (acc : RmAcc) (c : Call) (h : c ∈ acc.calls) :
    c ∈ (rmGate env acc).calls := by
  obtain ⟨δ, hδ, _⟩ := rmGate_calls env acc
  rw [hδ]
  exact List.mem_append_left _ h

/-! ### Lemmas about `scanState` -/

theorem scanState_handshake (env : Env) (s : OsState) (l : List Attr) :
    (scanState env s l).s.handshake_state = s.handshake_state :=
  foldl_classify_handshake env l _

theorem scanState_os_info (env : Env) (s : OsState) (l : List Attr) :
    (scanState env s l).s.os_info = s.os_info :=
  foldl_classify_os_info env l _

theorem scanState_assessment (env : Env) (s : OsState) (l : List Attr) :
    (scanState env s l).assessment = pkgFail env l := by
  unfold scanState pkgFail
  rw [foldl_classify_assessment]
  simp

theorem scanState_os_name (env : Env) (s : OsState) (l : List Attr) :
    (scanState env s l).os_name = l.foldl nameStep [] :=
  foldl_classify_os_name env l _

theorem scanState_os_version (env : Env) (s : OsState) (l : List Attr) :
    (scanState env s l).os_version = l.foldl versionStep [] :=
  foldl_classify_os_version env l _

theorem scanState_rec_isSome (env : Env) (s : OsState) (l : List Attr)
    (h : s.recommendation.isSome = true) :
    (scanState env s l).s.recommendation.isSome = true :=
  foldl_classify_rec_isSome env l _ h

theorem scanState_calls (env : Env) (s : OsState) (l : List Attr) (c : Call)
    (hc : c ∈ (scanState env s l).calls) :
    (∃ r, c = Call.checkPackages r) ∨ ∃ v, c = Call.addDevice v := by
  rcases foldl_classify_calls env l _ c hc with h | h
  · simp at h
  · exact h

/-! ### Lemmas about the local name/version buffers -/

theorem foldl_nameStep_of_not_mem (l : List Attr) (c : Chunk)
    (h : ∀ n, Attr.productInfo n ∉ l) : l.foldl nameStep c = c := by
  induction l generalizing c with
  | nil => rfl
  | cons a l ih =>
      cases a
      case productInfo n => exact absurd (List.mem_cons_self _ _) (h n)
      all_goals
        rw [List.foldl_cons]
        exact ih _ fun n hn => h n (List.mem_cons_of_mem _ hn)

theorem foldl_versionStep_of_not_mem (l : List Attr) (c : Chunk)
    (h : ∀ v, Attr.stringVersion v ∉ l) : l.foldl versionStep c = c := by
  induction l generalizing c with
  | nil => rfl
  | cons a l ih =>
      cases a
      case stringVersion v => exact absurd (List.mem_cons_self _ _) (h v)
      all_goals
        rw [List.foldl_cons]
        exact ih _ fun v hv => h v (List.mem_cons_of_mem _ hv)

theorem foldl_nameStep_ne_nil (l : List Attr) (c : Chunk)
    (hall : ∀ n, Attr.productInfo n ∈ l → n ≠ [])
    (h : (∃ n, Attr.productInfo n ∈ l) ∨ c ≠ []) : l.foldl nameStep c ≠ [] := by
  induction l generalizing c with
  | nil =>
      rcases h with ⟨n, hn⟩ | hc
      · cases hn
      · simpa using hc
  | cons a l ih =>
      cases a
      case productInfo n =>
        rw [List.foldl_cons]
        refine ih _ (fun m hm => hall m (List.mem_cons_of_mem _ hm)) ?_
        exact Or.inr (hall n (List.mem_cons_self _ _))
      all_goals
        rw [List.foldl_cons]
        refine ih _ (fun m hm => hall m (List.mem_cons_of_mem _ hm)) ?_
        rcases h with ⟨n, hn⟩ | hc
        · rcases List.mem_cons.mp hn with he | hm
          · simp at he
          · exact Or.inl ⟨n, hm⟩
        · exact Or.inr hc

theorem foldl_versionStep_ne_nil (l : List Attr) (c : Chunk)
    (hall : ∀ v, Attr.stringVersion v ∈ l → v ≠ [])
    (h : (∃ v, Attr.stringVersion v ∈ l) ∨ c ≠ []) : l.foldl versionStep c ≠ [] := by
  induction l generalizing c with
  | nil =>
      rcases h with ⟨v, hv⟩ | hc
      · cases hv
      · simpa using hc
  | cons a l ih =>
      cases a
      case stringVersion v =>
        rw [List.foldl_cons]
        refine ih _ (fun w hw => hall w (List.mem_cons_of_mem _ hw)) ?_
        exact Or.inr (hall v (List.mem_cons_self _ _))
      all_goals
        rw [List.foldl_cons]
        refine ih _ (fun w hw => hall w (List.mem_cons_of_mem _ hw)) ?_
        rcases h with ⟨v, hv⟩ | hc
        · rcases List.mem_cons.mp hv with he | hm
          · simp at he
          · exact Or.inl ⟨v, hm⟩
        · exact Or.inr hc

/-! ### Characterizations of `TNC_IMV_BatchEnding` by phase -/

theorem batchEnding_policyStart (env : Env) (s : OsState)
    (h : s.handshake_state = HandshakeState.policyStart) :
    TNC_IMV_BatchEnding env s = { s := s, calls := [], result := TNCResult.success } := by
  unfold TNC_IMV_BatchEnding
  rw [h]
  simp [hsVal]

theorem batchEnding_attrReq (env : Env) (s : OsState)
    (h : s.handshake_state = HandshakeState.attrReq) :
    TNC_IMV_BatchEnding env s =
      if s.received &&& IMV_OS_ATTR_PRODUCT_INFORMATION ≠ 0 ∧
         s.received &&& IMV_OS_ATTR_STRING_VERSION ≠ 0 then
        { s := set_handshake_state s HandshakeState.policyStart
          calls := (if env.imv_db then [Call.policyScript true] else []) ++
            [Call.sendAttrRequest [(Pen.ietf, AttrType.installedPackages)] true]
          result := TNCResult.success }
      else
        { s := set_recommendation s ActionRec.noRecommendation EvalResult.error
          calls := [Call.sendAssessment,
            Call.provideRecommendation
              (some (ActionRec.noRecommendation, EvalResult.error))]
          result := TNCResult.success } := by
  simp only [TNC_IMV_BatchEnding, h]
  norm_num [hsVal]
  simp [set_recommendation]

theorem batchEnding_init (env : Env) (s : OsState)
    (h : s.handshake_state = HandshakeState.init) :
    TNC_IMV_BatchEnding env s =
      (let calls0 : List Call :=
        if s.received ≠ IMV_OS_ATTR_ALL then
          [Call.sendAttrRequest (build_attr_request s.received) false]
        else []
      if (s.received &&& IMV_OS_ATTR_PRODUCT_INFORMATION ≠ 0 ∧
          s.received &&& IMV_OS_ATTR_STRING_VERSION ≠ 0) ∧
         s.received &&& IMV_OS_ATTR_DEVICE_ID ≠ 0 then
        { s := set_handshake_state s HandshakeState.policyStart
          calls := (if env.imv_db then calls0 ++ [Call.policyScript true] else calls0) ++
            [Call.sendAttrRequest [(Pen.ietf, AttrType.installedPackages)] true]
          result := TNCResult.success }
      else
        { s := set_handshake_state s HandshakeState.attrReq
          calls := calls0
          result := TNCResult.success }) := by
  simp only [TNC_IMV_BatchEnding, h]
  norm_num [hsVal]
  simp

/-! ### Claim theorems -/

/-- C2: with no prior hard failure, the assessment engine's verdict is
(Isolate, NonCompliantMinor) iff `needs_update > 0` or `blacklisted > 0`
or the settings set is non-empty, and (Allow, Compliant) otherwise; in
particular counters (10,2,0,8) with empty settings give Isolate,
(5,0,0,5) with empty settings give Allow, and (5,0,0,5) with the
DefaultPasswordEnabled setting give Isolate. -/
theorem C2_compliance_computation :
    (∀ count_update count_blacklist os_settings : Nat,
      (assessRec count_update count_blacklist os_settings =
          (ActionRec.isolate, EvalResult.noncompliantMinor) ↔
        0 < count_update ∨ 0 < count_blacklist ∨ os_settings ≠ 0) ∧
      (assessRec count_update count_blacklist os_settings =
          (ActionRec.allow, EvalResult.compliant) ↔
        ¬(0 < count_update ∨ 0 < count_blacklist ∨ os_settings ≠ 0))) ∧
    (receive_message envDb
        { imv_os_state_create with
          handshake_state := HandshakeState.policyStart
          count := 10
          count_update := 2
          count_blacklist := 0
          count_ok := 8 }
        ⟨[], true, false⟩).s.recommendation =
      some (ActionRec.isolate, EvalResult.noncompliantMinor) ∧
    (receive_message envDb
        { imv_os_state_create with
          handshake_state := HandshakeState.policyStart
          count := 5
          count_update := 0
          count_blacklist := 0
          count_ok := 5 }
        ⟨[], true, false⟩).s.recommendation =
      some (ActionRec.allow, EvalResult.compliant) ∧
    (receive_message envDb
        { imv_os_state_create with
          handshake_state := HandshakeState.policyStart
          count := 5
          count_ok := 5
          os_settings := OS_SETTINGS_DEFAULT_PWD_ENABLED }
        ⟨[], true, false⟩).s.recommendation =
      some (ActionRec.isolate, EvalResult.noncompliantMinor) := by
  refine ⟨fun cu cb st => ?_, by decide, by decide, by decide⟩
  unfold assessRec
  split_ifs with h
  · constructor
    · exact ⟨fun _ => by omega, fun _ => rfl⟩
    · constructor
      · intro hx; simp at hx
      · intro hx; exact absurd (show 0 < cu ∨ 0 < cb ∨ st ≠ 0 by omega) hx
  · constructor
    · constructor
      · intro hx; simp at hx
      · intro hx; exact absurd hx (by omega)
    · exact ⟨fun _ => by omega, fun _ => rfl⟩

/-- C3: at a batch boundary in phase AttributeRequested with the
identity attributes (ProductInfo and StringVersion) still missing, the
(NoRecommendation, Error) verdict is stored and the assessment emitted
(send-assessment then provide-recommendation); if both identity
attributes have been received by then, the session advances to
PolicyStarted with no error verdict and no assessment. -/
theorem C3_forgiveness_window (env : Env) (s : OsState)
    (h : s.handshake_state = HandshakeState.attrReq) :
    (¬(s.received &&& IMV_OS_ATTR_PRODUCT_INFORMATION ≠ 0 ∧
       s.received &&& IMV_OS_ATTR_STRING_VERSION ≠ 0) →
      (TNC_IMV_BatchEnding env s).s.recommendation =
        some (ActionRec.noRecommendation, EvalResult.error) ∧
      (TNC_IMV_BatchEnding env s).calls =
        [Call.sendAssessment,
         Call.provideRecommendation
           (some (ActionRec.noRecommendation, EvalResult.error))]) ∧
    ((s.received &&& IMV_OS_ATTR_PRODUCT_INFORMATION ≠ 0 ∧
      s.received &&& IMV_OS_ATTR_STRING_VERSION ≠ 0) →
      (TNC_IMV_BatchEnding env s).s.handshake_state = HandshakeState.policyStart ∧
      (TNC_IMV_BatchEnding env s).s.recommendation = s.recommendation ∧
      Call.sendAssessment ∉ (TNC_IMV_BatchEnding env s).calls) := by
  rw [batchEnding_attrReq env s h]
  constructor
  · intro hmiss
    rw [if_neg hmiss]
    exact ⟨by simp [set_recommendation], rfl⟩
  · intro hboth
    rw [if_pos hboth]
    refine ⟨by simp [set_handshake_state], by simp [set_handshake_state], ?_⟩
    by_cases hdb : env.imv_db = true <;> simp [hdb]

/-- Witness for C3: with nothing received, the error verdict fires at
the AttributeRequested batch boundary; with both identity attributes
received, the session advances instead. -/
theorem C3_witness :
    ((TNC_IMV_BatchEnding envNone
        { imv_os_state_create with
          handshake_state := HandshakeState.attrReq }).s.recommendation =
      some (ActionRec.noRecommendation, EvalResult.error) ∧
     (TNC_IMV_BatchEnding envNone
        { imv_os_state_create with
          handshake_state := HandshakeState.attrReq }).calls =
      [Call.sendAssessment,
       Call.provideRecommendation
         (some (ActionRec.noRecommendation, EvalResult.error))]) ∧
    ((TNC_IMV_BatchEnding envNone
        { imv_os_state_create with
          handshake_state := HandshakeState.attrReq
          received := 3 }).s.handshake_state = HandshakeState.policyStart ∧
     (TNC_IMV_BatchEnding envNone
        { imv_os_state_create with
          handshake_state := HandshakeState.attrReq
          received := 3 }).s.recommendation =
       ({ imv_os_state_create with
          handshake_state := HandshakeState.attrReq
          received := 3 } : OsState).recommendation ∧
     Call.sendAssessment ∉ (TNC_IMV_BatchEnding envNone
        { imv_os_state_create with
          handshake_state := HandshakeState.attrReq
          received := 3 }).calls) :=
  ⟨(C3_forgiveness_window envNone _ rfl).1 (by decide),
   (C3_forgiveness_window envNone _ rfl).2 (by decide)⟩

/-- C6: at a batch boundary below PolicyStarted, when ProductInfo and
StringVersion were received and (DeviceId was received or the phase is
AttributeRequested), the policy script is triggered, the
installed-packages request is sent with the exclusive flag, and the
phase advances to PolicyStarted; when the condition fails the phase
does not advance to PolicyStarted. -/
theorem C6_policy_start_transition (env : Env) (s : OsState)
    (hlt : hsVal s.handshake_state < hsVal HandshakeState.policyStart)
    (hdb : env.imv_db = true) :
    (((s.received &&& IMV_OS_ATTR_PRODUCT_INFORMATION ≠ 0 ∧
       s.received &&& IMV_OS_ATTR_STRING_VERSION ≠ 0) ∧
      (s.received &&& IMV_OS_ATTR_DEVICE_ID ≠ 0 ∨
       s.handshake_state = HandshakeState.attrReq)) →
      ((TNC_IMV_BatchEnding env s).s.handshake_state = HandshakeState.policyStart ∧
       Call.policyScript true ∈ (TNC_IMV_BatchEnding env s).calls ∧
       Call.sendAttrRequest [(Pen.ietf, AttrType.installedPackages)] true ∈
         (TNC_IMV_BatchEnding env s).calls)) ∧
    (¬((s.received &&& IMV_OS_ATTR_PRODUCT_INFORMATION ≠ 0 ∧
        s.received &&& IMV_OS_ATTR_STRING_VERSION ≠ 0) ∧
       (s.received &&& IMV_OS_ATTR_DEVICE_ID ≠ 0 ∨
        s.handshake_state = HandshakeState.attrReq)) →
      (TNC_IMV_BatchEnding env s).s.handshake_state ≠ HandshakeState.policyStart) := by
  cases hst : s.handshake_state with
  | policyStart => rw [hst] at hlt; simp [hsVal] at hlt
  | init =>
      rw [batchEnding_init env s hst]
      simp only []
      constructor
      · rintro ⟨hps, hdev | habs⟩
        · rw [if_pos ⟨hps, hdev⟩]
          refine ⟨by simp [set_handshake_state], ?_, ?_⟩
          · rw [hdb]
            simp
          · simp
        · simp at habs
      · intro hnc
        rw [if_neg fun hc => hnc ⟨hc.1, Or.inl hc.2⟩]
        simp [set_handshake_state]
  | attrReq =>
      rw [batchEnding_attrReq env s hst]
      constructor
      · rintro ⟨hps, _⟩
        rw [if_pos hps]
        refine ⟨by simp [set_handshake_state], ?_, ?_⟩
        · rw [hdb]
          simp
        · simp
      · intro hnc
        rw [if_neg fun hp => hnc ⟨hp, Or.inr rfl⟩]
        simp [set_recommendation, hst]

/-- Witness for C6: at phase AttributeRequested with the identity
attributes received, the transition to PolicyStarted occurs with the
policy trigger and the exclusive installed-packages request. -/
theorem C6_witness :
    (TNC_IMV_BatchEnding envDb
      { imv_os_state_create with
        handshake_state := HandshakeState.attrReq
        received := 3 }).s.handshake_state = HandshakeState.policyStart ∧
    Call.policyScript true ∈ (TNC_IMV_BatchEnding envDb
      { imv_os_state_create with
        handshake_state := HandshakeState.attrReq
        received := 3 }).calls ∧
    Call.sendAttrRequest [(Pen.ietf, AttrType.installedPackages)] true ∈
      (TNC_IMV_BatchEnding envDb
        { imv_os_state_create with
          handshake_state := HandshakeState.attrReq
          received := 3 }).calls :=
  (C6_policy_start_transition envDb _ (by decide) rfl).1 ⟨by decide, Or.inr rfl⟩

/-- C7: the missing-attribute request builder is a pure function of the
received mask; its output equals the spec's request table filtered by
the spec's request rule (so ProductInfo and StringVersion are requested
as a pair whenever either is missing, the five other kinds individually
when absent, in fixed table order); for the mask with only ProductInfo
received, the output is the full table. -/
theorem C7_request_builder :
    (∀ received : Nat, received < 128 →
      build_attr_request received = requestTable.filter (specRequested received)) ∧
    (∀ received : Nat, received < 128 →
      ((Pen.ietf, AttrType.productInformation) ∈ build_attr_request received ↔
        (Pen.ietf, AttrType.stringVersion) ∈ build_attr_request received)) ∧
    (∀ received : Nat, received < 128 →
      ((Pen.ietf, AttrType.productInformation) ∈ build_attr_request received ↔
        (received &&& IMV_OS_ATTR_PRODUCT_INFORMATION = 0 ∨
         received &&& IMV_OS_ATTR_STRING_VERSION = 0))) ∧
    (∀ received : Nat, received < 128 →
      ((Pen.ietf, AttrType.numericVersion) ∈ build_attr_request received ↔
        received &&& IMV_OS_ATTR_NUMERIC_VERSION = 0)) ∧
    (∀ received : Nat, received < 128 →
      ((Pen.ietf, AttrType.operationalStatus) ∈ build_attr_request received ↔
        received &&& IMV_OS_ATTR_OPERATIONAL_STATUS = 0)) ∧
    (∀ received : Nat, received < 128 →
      ((Pen.ietf, AttrType.forwardingEnabled) ∈ build_attr_request received ↔
        received &&& IMV_OS_ATTR_FORWARDING_ENABLED = 0)) ∧
    (∀ received : Nat, received < 128 →
      ((Pen.ietf, AttrType.factoryDefaultPwdEnabled) ∈ build_attr_request received ↔
        received &&& IMV_OS_ATTR_FACTORY_DEFAULT_PWD_ENABLED = 0)) ∧
    (∀ received : Nat, received < 128 →
      ((Pen.ita, AttrType.deviceIdType) ∈ build_attr_request received ↔
        received &&& IMV_OS_ATTR_DEVICE_ID = 0)) ∧
    build_attr_request IMV_OS_ATTR_PRODUCT_INFORMATION =
      [(Pen.ietf, AttrType.productInformation),
       (Pen.ietf, AttrType.stringVersion),
       (Pen.ietf, AttrType.numericVersion),
       (Pen.ietf, AttrType.operationalStatus),
       (Pen.ietf, AttrType.forwardingEnabled),
       (Pen.ietf, AttrType.factoryDefaultPwdEnabled),
       (Pen.ita, AttrType.deviceIdType)] := by
  refine ⟨by decide, by decide, by decide, by decide, by decide, by decide,
    by decide, by decide, by decide⟩

/-- Witness for C7 at the mask with only ProductInfo received. -/
theorem C7_witness :
    (1 : Nat) < 128 ∧
    build_attr_request 1 = requestTable.filter (specRequested 1) :=
  ⟨by decide, C7_request_builder.1 1 (by decide)⟩

/-- With no OS database, the classifier skips an InstalledPackages
attribute inside any attribute list. -/
theorem scanState_skip_pkg (env : Env) (s : OsState) (res : PkgCheck)
    (l1 l2 : List Attr) (hdb : env.os_db = false) :
    scanState env s (l1 ++ Attr.installedPackages res :: l2) =
      scanState env s (l1 ++ l2) := by
  unfold scanState
  rw [List.foldl_append, List.foldl_append, List.foldl_cons]
  congr 1
  simp [classify, hdb]

theorem scanState_rec_err_of_fail (env : Env) (s : OsState) (l : List Attr)
    (hdb : env.os_db = true)
    (hmem : Attr.installedPackages PkgCheck.failed ∈ l) :
    (scanState env s l).s.recommendation =
      some (ActionRec.noRecommendation, EvalResult.error) :=
  foldl_classify_rec_err_of_fail env l _ hdb hmem

/-- C10 (amended context: implicit frame claim): with the OS package
database absent, an InstalledPackages attribute is a complete no-op of
the classifier, and processing a message containing one is identical to
processing the same message without it. -/
theorem C10_no_db_frame (env : Env) (s : OsState) (res : PkgCheck)
    (l1 l2 : List Attr) (ok fe : Bool) (hdb : env.os_db = false) :
    receive_message env s ⟨l1 ++ Attr.installedPackages res :: l2, ok, fe⟩ =
      receive_message env s ⟨l1 ++ l2, ok, fe⟩ ∧
    ∀ acc : RmAcc, classify env acc (Attr.installedPackages res) = acc := by
  constructor
  · cases ok
    · rfl
    · rw [receive_message_ok _ _ _ rfl, receive_message_ok _ _ _ rfl]
      simp only []
      rw [scanState_skip_pkg env s res l1 l2 hdb]
  · intro acc
    simp [classify, hdb]

/-- Witness for C10: with no database, a message carrying a failing
InstalledPackages attribute is processed exactly like the message
without it. -/
theorem C10_witness :
    receive_message envNone imv_os_state_create
        ⟨[Attr.numericVersion, Attr.installedPackages PkgCheck.failed], true, false⟩ =
      receive_message envNone imv_os_state_create ⟨[Attr.numericVersion], true, false⟩ :=
  (C10_no_db_frame envNone imv_os_state_create PkgCheck.failed
    [Attr.numericVersion] [] true false rfl).1

/-- C9: a hard failure of the package check forces the
(NoRecommendation, Error) verdict and the assessment in the same
invocation, in the order send-assessment then provide-recommendation,
bypassing the normal gating (any phase, any angel count); the
counter-based assessment (and its set_device_info store) is not run. -/
theorem C9_pkg_failure_escalation (env : Env) (s : OsState) (m : Msg)
    (hok : m.receive_ok = true) (hfe : m.fatal_error = false) (hdb : env.os_db = true)
    (hmem : Attr.installedPackages PkgCheck.failed ∈ m.attrs) :
    (receive_message env s m).s.recommendation =
      some (ActionRec.noRecommendation, EvalResult.error) ∧
    (∀ n1 n2 n3 n4, Call.setDeviceInfo n1 n2 n3 n4 ∉ (receive_message env s m).calls) ∧
    ∃ pre, (receive_message env s m).calls = pre ++
      [Call.sendAssessment,
       Call.provideRecommendation
         (some (ActionRec.noRecommendation, EvalResult.error))] := by
  rw [receive_message_ok env s m hok, hfe, rmFatal_false]
  have hassess : (rmIdentity env (scanState env s m.attrs)).assessment = true := by
    rw [rmIdentity_assessment, scanState_assessment]
    unfold pkgFail
    rw [hdb]
    simp only [Bool.true_and]
    exact List.any_eq_true.mpr ⟨_, hmem, rfl⟩
  have hrec : (rmIdentity env (scanState env s m.attrs)).s.recommendation =
      some (ActionRec.noRecommendation, EvalResult.error) := by
    rw [rmIdentity_rec]
    exact scanState_rec_err_of_fail env s m.attrs hdb hmem
  rw [rmGate_skip env _ hassess]
  refine ⟨by rw [rmEmit_s, hrec], ?_, ⟨_, by rw [rmEmit_calls_true _ hassess, hrec]⟩⟩
  intro n1 n2 n3 n4 hin
  rw [rmEmit_calls_true _ hassess] at hin
  rcases List.mem_append.mp hin with hin | hin
  · obtain ⟨d, hd, hdall⟩ := rmIdentity_calls env (scanState env s m.attrs)
    rw [hd] at hin
    rcases List.mem_append.mp hin with hin | hin
    · rcases scanState_calls env s m.attrs _ hin with ⟨r, hr⟩ | ⟨v, hv⟩
      · simp at hr
      · simp at hv
    · obtain ⟨n, v, hnv⟩ := hdall _ hin
      simp at hnv
  · simp at hin

/-- Witness for C9: a single failing InstalledPackages attribute in
phase Init (gating not satisfied) still forces the error assessment. -/
theorem C9_witness :
    (receive_message envDb imv_os_state_create
        ⟨[Attr.installedPackages PkgCheck.failed], true, false⟩).s.recommendation =
      some (ActionRec.noRecommendation, EvalResult.error) ∧
    (∀ n1 n2 n3 n4, Call.setDeviceInfo n1 n2 n3 n4 ∉
      (receive_message envDb imv_os_state_create
        ⟨[Attr.installedPackages PkgCheck.failed], true, false⟩).calls) ∧
    ∃ pre, (receive_message envDb imv_os_state_create
        ⟨[Attr.installedPackages PkgCheck.failed], true, false⟩).calls = pre ++
      [Call.sendAssessment,
       Call.provideRecommendation
         (some (ActionRec.noRecommendation, EvalResult.error))] :=
  C9_pkg_failure_escalation envDb imv_os_state_create
    ⟨[Attr.installedPackages PkgCheck.failed], true, false⟩ rfl rfl rfl
    (List.mem_singleton.mpr rfl)

/-- Counterexample to C8 as stated: on a message whose decode step
reports a fatal error (yet yields attributes), the classifier IS
invoked — the forwarding attribute updates the settings and received
masks — even though the error verdict is forced. -/
theorem C8_counterexample :
    (receive_message envNone imv_os_state_create
        ⟨[Attr.forwardingEnabled OsFwdStatus.enabled], true, true⟩).s.os_settings =
      OS_SETTINGS_FWD_ENABLED ∧
    (receive_message envNone imv_os_state_create
        ⟨[Attr.forwardingEnabled OsFwdStatus.enabled], true, true⟩).s.received =
      IMV_OS_ATTR_FORWARDING_ENABLED ∧
    OS_SETTINGS_FWD_ENABLED ≠ imv_os_state_create.os_settings ∧
    (receive_message envNone imv_os_state_create
        ⟨[Attr.forwardingEnabled OsFwdStatus.enabled], true, true⟩).s.recommendation =
      some (ActionRec.noRecommendation, EvalResult.error) := by
  refine ⟨by decide, by decide, by decide, by decide⟩

/-- C8 (amended): when the decode step fails outright the classifier is
not invoked and no verdict is emitted (the call returns the error); when
the decode step succeeds but reports a fatal error, the attributes are
still classified, and then the (NoRecommendation, Error) verdict is
forced and the assessment emitted. -/
theorem C8_fatal_error_amended (env : Env) (s : OsState) (m : Msg) :
    (m.receive_ok = false →
      receive_message env s m =
        { s := s, calls := [], assessment := false, result := TNCResult.other }) ∧
    (m.receive_ok = true → m.fatal_error = true →
      (receive_message env s m).s.recommendation =
        some (ActionRec.noRecommendation, EvalResult.error) ∧
      ∃ pre, (receive_message env s m).calls = pre ++
        [Call.sendAssessment,
         Call.provideRecommendation
           (some (ActionRec.noRecommendation, EvalResult.error))]) := by
  constructor
  · intro h
    unfold receive_message
    rw [if_pos h]
  · intro hok hfe
    rw [receive_message_ok env s m hok, hfe]
    have hassess : (rmFatal true (rmIdentity env (scanState env s m.attrs))).assessment = true := by
      rw [rmFatal_assessment]
      simp
    have hrec := rmFatal_rec_true (rmIdentity env (scanState env s m.attrs))
    rw [rmGate_skip env _ hassess]
    exact ⟨by rw [rmEmit_s, hrec], ⟨_, by rw [rmEmit_calls_true _ hassess, hrec]⟩⟩

/-- Witness for C8 (amended), on a fatally flagged empty message. -/
theorem C8_witness :
    (receive_message envNone imv_os_state_create ⟨[], true, true⟩).s.recommendation =
      some (ActionRec.noRecommendation, EvalResult.error) ∧
    ∃ pre, (receive_message envNone imv_os_state_create ⟨[], true, true⟩).calls = pre ++
      [Call.sendAssessment,
       Call.provideRecommendation
         (some (ActionRec.noRecommendation, EvalResult.error))] :=
  (C8_fatal_error_amended envNone imv_os_state_create ⟨[], true, true⟩).2 rfl rfl

/-- C4: ProductInfo alone or StringVersion alone in a message never
sets the OS identity; when both occur in a message with non-empty
payloads, the identity is set after the full message is scanned, and
the product is registered with the IMV database when configured. -/
theorem C4_joint_identity (env : Env) (s : OsState) (m : Msg)
    (hok : m.receive_ok = true) :
    ((∀ v, Attr.stringVersion v ∉ m.attrs) →
      (receive_message env s m).s.os_info = s.os_info) ∧
    ((∀ n, Attr.productInfo n ∉ m.attrs) →
      (receive_message env s m).s.os_info = s.os_info) ∧
    ((∃ n, Attr.productInfo n ∈ m.attrs) → (∃ v, Attr.stringVersion v ∈ m.attrs) →
     (∀ n, Attr.productInfo n ∈ m.attrs → n ≠ []) →
     (∀ v, Attr.stringVersion v ∈ m.attrs → v ≠ []) →
      ((∃ n v, (receive_message env s m).s.os_info = some (n, v) ∧ n ≠ [] ∧ v ≠ []) ∧
       (env.imv_db = true →
         ∃ n v, Call.addProduct n v ∈ (receive_message env s m).calls))) := by
  rw [receive_message_ok env s m hok]
  have hinfo : (rmEmit (rmGate env (rmFatal m.fatal_error
        (rmIdentity env (scanState env s m.attrs))))).s.os_info =
      if (scanState env s m.attrs).os_name ≠ [] ∧
         (scanState env s m.attrs).os_version ≠ [] then
        some ((scanState env s m.attrs).os_name, (scanState env s m.attrs).os_version)
      else (scanState env s m.attrs).s.os_info := by
    rw [rmEmit_s, rmGate_os_info, rmFatal_os_info, rmIdentity_os_info]
  refine ⟨?_, ?_, ?_⟩
  · intro hno
    have hv : (scanState env s m.attrs).os_version = [] := by
      rw [scanState_os_version]
      exact foldl_versionStep_of_not_mem _ _ hno
    rw [hinfo, if_neg (fun hc => hc.2 hv)]
    exact scanState_os_info env s m.attrs
  · intro hno
    have hn : (scanState env s m.attrs).os_name = [] := by
      rw [scanState_os_name]
      exact foldl_nameStep_of_not_mem _ _ hno
    rw [hinfo, if_neg (fun hc => hc.1 hn)]
    exact scanState_os_info env s m.attrs
  · intro hex hexv hall hallv
    have hn : (scanState env s m.attrs).os_name ≠ [] := by
      rw [scanState_os_name]
      exact foldl_nameStep_ne_nil _ _ hall (Or.inl hex)
    have hv : (scanState env s m.attrs).os_version ≠ [] := by
      rw [scanState_os_version]
      exact foldl_versionStep_ne_nil _ _ hallv (Or.inl hexv)
    constructor
    · exact ⟨_, _, by rw [hinfo, if_pos ⟨hn, hv⟩], hn, hv⟩
    · intro hdb
      refine ⟨(scanState env s m.attrs).os_name, (scanState env s m.attrs).os_version, ?_⟩
      apply rmEmit_calls_mono
      apply rmGate_calls_mono
      rw [rmFatal_calls]
      exact rmIdentity_addProduct env _ hn hv hdb

/-- Witness for C4: a message with both identity attributes non-empty
sets the identity and registers the product. -/
theorem C4_witness :
    (∃ n v, (receive_message envDb imv_os_state_create
      ⟨[Attr.productInfo ['L'], Attr.stringVersion ['7']], true, false⟩).s.os_info =
        some (n, v) ∧ n ≠ [] ∧ v ≠ []) ∧
    (envDb.imv_db = true →
      ∃ n v, Call.addProduct n v ∈ (receive_message envDb imv_os_state_create
        ⟨[Attr.productInfo ['L'], Attr.stringVersion ['7']], true, false⟩).calls) :=
  (C4_joint_identity envDb imv_os_state_create
      ⟨[Attr.productInfo ['L'], Attr.stringVersion ['7']], true, false⟩ rfl).2.2
    ⟨['L'], by simp⟩ ⟨['7'], by simp⟩
    (by
      intro n hn
      simp only [List.mem_cons, List.mem_singleton] at hn
      rcases hn with hn | hn | hn
      · cases hn; simp
      · cases hn
      · cases hn)
    (by
      intro v hv
      simp only [List.mem_cons, List.mem_singleton] at hv
      rcases hv with hv | hv | hv
      · cases hv
      · cases hv; simp
      · cases hv)

/-- C5 (amended): after a successfully received message, the assessment
is emitted iff a hard failure occurred in this message (fatal decode
error or package-check failure) or the phase is PolicyStarted and the
angel count after classification is zero.  The code maintains no
assessment-done flag: a previously emitted verdict does not block
re-emission. -/
theorem C5_gating_amended (env : Env) (s : OsState) (m : Msg)
    (hok : m.receive_ok = true) :
    Call.sendAssessment ∈ (receive_message env s m).calls ↔
      (m.fatal_error = true ∨ pkgFail env m.attrs = true) ∨
      (s.handshake_state = HandshakeState.policyStart ∧
       (scanState env s m.attrs).s.angel_count = 0) := by
  rw [receive_message_ok env s m hok]
  have hpre : Call.sendAssessment ∉ (rmGate env (rmFatal m.fatal_error
      (rmIdentity env (scanState env s m.attrs)))).calls := by
    obtain ⟨d2, hd2, hall2⟩ := rmGate_calls env _
    rw [hd2, rmFatal_calls]
    intro hin
    rcases List.mem_append.mp hin with hin | hin
    · obtain ⟨d1, hd1, hall1⟩ := rmIdentity_calls env _
      rw [hd1] at hin
      rcases List.mem_append.mp hin with hin | hin
      · rcases scanState_calls env s m.attrs _ hin with ⟨r, hr⟩ | ⟨v, hv⟩
        · simp at hr
        · simp at hv
      · obtain ⟨n, v, h⟩ := hall1 _ hin
        simp at h
    · obtain ⟨a, b, c, d, h⟩ := hall2 _ hin
      simp at h
  constructor
  · intro hmem
    have h4 : (rmGate env (rmFatal m.fatal_error
        (rmIdentity env (scanState env s m.attrs)))).assessment = true := by
      by_contra h4n
      rw [rmEmit_calls_false _ (Bool.eq_false_iff.mpr h4n)] at hmem
      rcases List.mem_append.mp hmem with h | h
      · exact hpre h
      · simp at h
    rw [rmGate_assessment, rmFatal_assessment, rmIdentity_assessment,
      scanState_assessment, rmFatal_handshake, rmIdentity_handshake,
      scanState_handshake, rmFatal_angel, rmIdentity_angel] at h4
    simp only [Bool.or_eq_true, Bool.and_eq_true, decide_eq_true_eq] at h4
    tauto
  · intro hrhs
    have h4 : (rmGate env (rmFatal m.fatal_error
        (rmIdentity env (scanState env s m.attrs)))).assessment = true := by
      rw [rmGate_assessment, rmFatal_assessment, rmIdentity_assessment,
        scanState_assessment, rmFatal_handshake, rmIdentity_handshake,
        scanState_handshake, rmFatal_angel, rmIdentity_angel]
      simp only [Bool.or_eq_true, Bool.and_eq_true, decide_eq_true_eq]
      tauto
    rw [rmEmit_calls_true _ h4]
    simp

/-- Counterexample to C5 as stated: the trace reaches PolicyStarted and
emits the (single) verdict; a further message then emits the assessment
again even though the verdict was already submitted, so the claimed
"assessment_done == false" conjunct of the gating condition is not
enforced by the code. -/
theorem C5_counterexample :
    provideCount (runEvents envNone imv_os_state_create
      [Event.batchEnd,
       Event.message ⟨[Attr.productInfo ['a'], Attr.stringVersion ['b']], true, false⟩,
       Event.batchEnd,
       Event.message ⟨[], true, false⟩]).2 = 1 ∧
    Call.sendAssessment ∈ (receive_message envNone
      (runEvents envNone imv_os_state_create
        [Event.batchEnd,
         Event.message ⟨[Attr.productInfo ['a'], Attr.stringVersion ['b']], true, false⟩,
         Event.batchEnd,
         Event.message ⟨[], true, false⟩]).1 ⟨[], true, false⟩).calls := by
  refine ⟨by decide, by decide⟩

/-- Witness for C5: with phase PolicyStarted and angel count 1 no
verdict is emitted; the stop-angel message brings the count to 0 and
the (Allow, Compliant) verdict fires, submitted exactly once. -/
theorem C5_witness :
    Call.sendAssessment ∉ (receive_message envNone
      { imv_os_state_create with
        handshake_state := HandshakeState.policyStart
        angel_count := 1 } ⟨[], true, false⟩).calls ∧
    Call.sendAssessment ∈ (receive_message envNone
      { imv_os_state_create with
        handshake_state := HandshakeState.policyStart
        angel_count := 1 } ⟨[Attr.stopAngel], true, false⟩).calls ∧
    (receive_message envNone
      { imv_os_state_create with
        handshake_state := HandshakeState.policyStart
        angel_count := 1 } ⟨[Attr.stopAngel], true, false⟩).s.recommendation =
      some (ActionRec.allow, EvalResult.compliant) ∧
    provideCount (receive_message envNone
      { imv_os_state_create with
        handshake_state := HandshakeState.policyStart
        angel_count := 1 } ⟨[Attr.stopAngel], true, false⟩).calls = 1 := by
  refine ⟨?_, ?_, by decide, by decide⟩
  · intro hmem
    exact absurd ((C5_gating_amended envNone _ _ rfl).mp hmem) (by decide)
  · exact (C5_gating_amended envNone _ _ rfl).mpr (by decide)

theorem runEvents_cons (env : Env) (s : OsState) (e : Event) (es : List Event) :
    runEvents env s (e :: es) =
      ((runEvents env (step env s e).1 es).1,
       (step env s e).2 ++ (runEvents env (step env s e).1 es).2) := rfl

theorem batchEnding_rec_isSome (env : Env) (s : OsState)
    (h : s.recommendation.isSome = true) :
    (TNC_IMV_BatchEnding env s).s.recommendation.isSome = true := by
  cases hst : s.handshake_state
  · rw [batchEnding_init env s hst]
    simp only []
    split
    · simp [set_handshake_state, h]
    · simp [set_handshake_state, h]
  · rw [batchEnding_attrReq env s hst]
    split
    · simp [set_handshake_state, h]
    · simp [set_recommendation]
  · rw [batchEnding_policyStart env s hst]
    exact h

theorem receive_message_rec_isSome (env : Env) (s : OsState) (m : Msg)
    (h : s.recommendation.isSome = true) :
    (receive_message env s m).s.recommendation.isSome = true := by
  cases hok : m.receive_ok
  · unfold receive_message
    rw [if_pos hok]
    exact h
  · rw [receive_message_ok env s m hok, rmEmit_s]
    apply rmGate_rec_isSome
    apply rmFatal_rec_isSome
    rw [rmIdentity_rec]
    exact scanState_rec_isSome env s m.attrs h

/-- C1 (amended): the per-session "a recommendation has been stored"
flag is monotone — once a recommendation exists it persists through
every further event, so it transitions false to true at most once.
However (see the counterexample) the code does not stop the verdict
from being SUBMITTED to the sink again when events continue after an
assessment. -/
theorem C1_verdict_once_amended (env : Env) (s : OsState) (es : List Event)
    (h : s.recommendation.isSome = true) :
    ((runEvents env s es).1).recommendation.isSome = true := by
  induction es generalizing s with
  | nil => exact h
  | cons e es ih =>
      rw [runEvents_cons]
      cases e with
      | message m => exact ih _ (receive_message_rec_isSome env s m h)
      | batchEnd => exact ih _ (batchEnding_rec_isSome env s h)

/-- Witness for C1 (amended), from a state that already has a stored
recommendation. -/
theorem C1_witness :
    ({ imv_os_state_create with
       recommendation :=
         some (ActionRec.allow, EvalResult.compliant) } : OsState).recommendation.isSome
      = true ∧
    ((runEvents envNone
      { imv_os_state_create with
        recommendation := some (ActionRec.allow, EvalResult.compliant) }
      [Event.batchEnd, Event.message ⟨[], true, false⟩]).1).recommendation.isSome = true :=
  ⟨by decide, C1_verdict_once_amended envNone _ _ (by decide)⟩

/-- Counterexample to C1 as stated: a concrete event sequence on one
session in which the verdict is submitted to the recommendation sink
twice (two provide-recommendation calls). -/
theorem C1_counterexample :
    provideCount (runEvents envNone imv_os_state_create
      [Event.batchEnd,
       Event.message ⟨[Attr.productInfo ['a'], Attr.stringVersion ['b']], true, false⟩,
       Event.batchEnd,
       Event.message ⟨[], true, false⟩,
       Event.message ⟨[], true, false⟩]).2 = 2 := by decide

end ImvOs
